/-
Verification of the social-media CRUD backend domain model and service
layer (users, posts, comments, follow edges).

The Lean definitions below are a shallow embedding of the Python source:
  * `api/models.py`    — User / Post / Comment records, follow relation,
                         derived counts, `Comment.clean` / `Comment.save`;
  * `api/repositories.py` — `DjangoRepository.create` / `.update` and the
                         entity lookups (`get_by_id`, `get_by_username`, ...);
  * `api/services.py`  — `UserService.create_user`, `follow_user`,
                         `unfollow_user`, `PostService.create_post`,
                         `get_posts_with_filters`, `get_post_with_comments`,
                         `CommentService.create_comment`;
  * `api/serializers.py` — `PostSerializer.validate_content`,
                         `CommentSerializer.validate_content`;
  * `api/views.py`     — the wiring of serializer validation before the
                         service call on the create endpoints.

The database is a record of lists (rows in insertion order) plus a finset
of (follower, followed) id pairs for the many-to-many follow relation.
The Django autoincrement primary keys are modelled by per-table counters.
Timestamps (`created_at`, assigned by the store on insert) are `Nat`.

Error model: every failing service path in the source raises
`django.core.exceptions.ValidationError` with a message string.  The specification
error taxonomy in section 7 classifies those raises whose message names a missing
referenced entity ("Author not found", "Post not found", "One or both users
not found") as NotFound-class, and the rest as ValidationError-class, noting
that the implementation surfaces both through the same exception type.  The
`SvcError` constructors record that taxonomy class; the message strings are
verbatim from the source.
-/
import Mathlib

namespace SocialMedia

/-- Taxonomy-classified service error; messages are the literals of the source. -/
inductive SvcError where
  | notFound (msg : String)
  | validationError (msg : String)
deriving DecidableEq, Repr

/-- Python whitespace characters recognised by `str.strip()`. -/
def pySpace (c : Char) : Bool :=
  c = ' ' || c = '\t' || c = '\n' || c = '\x0d' || c = '\x0b' || c = '\x0c'

/-- `True` exactly when the Python test `not s or len(s.strip()) == 0`
holds, i.e. the string is empty or whitespace-only. -/
def stripEmpty (s : String) : Bool :=
  s.toList.all pySpace

/-- Python `s.strip()`: drop `pySpace` characters from both ends. -/
def pyStrip (s : String) : String :=
  String.mk ((((s.toList.dropWhile pySpace).reverse.dropWhile pySpace).reverse))

/-- Row of the `api_user` table (`User` model, models.py).  The credential
is stored opaquely as the `password` column. -/
structure UserRec where
  id : Nat
  username : String
  email : String
  password : String
deriving DecidableEq, Repr

/-- Row of the `api_post` table (`Post` model, models.py). -/
structure PostRec where
  id : Nat
  authorId : Nat
  content : String
  createdAt : Nat
deriving DecidableEq, Repr

/-- Row of the `api_comment` table (`Comment` model, models.py). -/
structure CommentRec where
  id : Nat
  authorId : Nat
  postId : Nat
  content : String
  createdAt : Nat
deriving DecidableEq, Repr

/-- The relational store: one list per table plus the follow relation
(`User.followers` many-to-many through table), ids assigned by counters. -/
structure DB where
  users : List UserRec
  posts : List PostRec
  comments : List CommentRec
  /-- Set of (follower id, followed id) pairs. -/
  follows : Finset (Nat × Nat)
  nextUserId : Nat
  nextPostId : Nat
  nextCommentId : Nat

/-- `UserRepository.get_by_id` — `objects.get(pk=id)`, `None` on miss. -/
def getUserById (s : DB) (id : Nat) : Option UserRec :=
  s.users.find? (fun u => u.id == id)

/-- `UserRepository.get_by_username`. -/
def getUserByUsername (s : DB) (username : String) : Option UserRec :=
  s.users.find? (fun u => u.username == username)

/-- `UserRepository.get_by_email`. -/
def getUserByEmail (s : DB) (email : String) : Option UserRec :=
  s.users.find? (fun u => u.email == email)

/-- `PostRepository.get_by_id`. -/
def getPostById (s : DB) (id : Nat) : Option PostRec :=
  s.posts.find? (fun p => p.id == id)

/-- The `get_by_id` that `CommentRepository` inherits. -/
def getCommentById (s : DB) (id : Nat) : Option CommentRec :=
  s.comments.find? (fun c => c.id == id)

/-- `User.is_following` (models.py): `user in self.following.all()`. -/
def isFollowing (s : DB) (a b : Nat) : Bool :=
  (a, b) ∈ s.follows

/-- `User.get_followers_count` (models.py): `self.followers.count()`. -/
def followersCount (s : DB) (u : Nat) : Nat :=
  (s.follows.filter (fun p => p.2 = u)).card

/-- `User.get_following_count` (models.py): `self.following.count()`. -/
def followingCount (s : DB) (u : Nat) : Nat :=
  (s.follows.filter (fun p => p.1 = u)).card

/-- The set of ids following `u` (`user.followers.all()`). -/
def followersOf (s : DB) (u : Nat) : Finset Nat :=
  (s.follows.filter (fun p => p.2 = u)).image Prod.fst

/-- The set of ids that `u` follows (`user.following.all()`). -/
def followingOf (s : DB) (u : Nat) : Finset Nat :=
  (s.follows.filter (fun p => p.1 = u)).image Prod.snd

/-- `UserService.follow_user` (services.py).  Looks up both users, rejects
self-follow (Django model equality compares primary keys) and duplicate
edges, otherwise inserts the edge (`follower.following.add(...)`).  The
second component is the store after the call; failing paths raise before
any write, so they return the store unchanged. -/
def follow_user (s : DB) (followerId userToFollowId : Nat) :
    Except SvcError String × DB :=
  match getUserById s followerId, getUserById s userToFollowId with
  | some follower, some userToFollow =>
    if follower.id = userToFollow.id then
      (.error (.validationError "Users cannot follow themselves"), s)
    else if (follower.id, userToFollow.id) ∈ s.follows then
      (.error (.validationError "Already following this user"), s)
    else
      (.ok (follower.username ++ " is now following " ++ userToFollow.username),
       { s with follows := insert (follower.id, userToFollow.id) s.follows })
  | _, _ => (.error (.notFound "One or both users not found"), s)

/-- `UserService.unfollow_user` (services.py).  Looks up both users,
rejects a missing edge, otherwise removes it
(`follower.following.remove(...)`). -/
def unfollow_user (s : DB) (followerId userToUnfollowId : Nat) :
    Except SvcError String × DB :=
  match getUserById s followerId, getUserById s userToUnfollowId with
  | some follower, some userToUnfollow =>
    if (follower.id, userToUnfollow.id) ∈ s.follows then
      (.ok (follower.username ++ " unfollowed " ++ userToUnfollow.username),
       { s with follows := s.follows.erase (follower.id, userToUnfollow.id) })
    else
      (.error (.validationError "Not following this user"), s)
  | _, _ => (.error (.notFound "One or both users not found"), s)

/-- `UserService.create_user` (services.py).  The fields come from
`user_data.get(...)`, hence `Option`; the Python test `not all([...])` fails
exactly when a field is missing (`None`) or the empty string.  Checks run
in source order: required fields, then username uniqueness, then email
uniqueness; success persists via `UserRepository.create`. -/
def create_user (s : DB) (username email password : Option String) :
    Except SvcError UserRec × DB :=
  match username, email, password with
  | some un, some em, some pw =>
    if un = "" ∨ em = "" ∨ pw = "" then
      (.error (.validationError "Username, email, and password are required"), s)
    else if (getUserByUsername s un).isSome then
      (.error (.validationError "Username already exists"), s)
    else if (getUserByEmail s em).isSome then
      (.error (.validationError "Email already exists"), s)
    else
      let u : UserRec :=
        { id := s.nextUserId, username := un, email := em, password := pw }
      (.ok u, { s with users := s.users ++ [u], nextUserId := s.nextUserId + 1 })
  | _, _, _ =>
      (.error (.validationError "Username, email, and password are required"), s)

/-- `PostService.create_post` (services.py).  Author lookup, then the
emptiness test `not content or len(content.strip()) == 0`, then
`PostRepository.create` (plain `objects.create`; the `Post` model does not
override `save`, so no further validation runs).  `now` is the
store-assigned `created_at` timestamp. -/
def create_post (s : DB) (authorId : Nat) (content : String) (now : Nat) :
    Except SvcError PostRec × DB :=
  match getUserById s authorId with
  | none => (.error (.notFound "Author not found"), s)
  | some author =>
    if stripEmpty content then
      (.error (.validationError "Post content cannot be empty"), s)
    else
      let p : PostRec :=
        { id := s.nextPostId, authorId := author.id, content := content,
          createdAt := now }
      (.ok p, { s with posts := s.posts ++ [p], nextPostId := s.nextPostId + 1 })

/-- `PostSerializer.validate_content` (serializers.py): reject empty or
whitespace-only content, then content over 5000 characters (length of the
original value), and return the stripped value. -/
def postValidateContent (value : String) : Except SvcError String :=
  if stripEmpty value then
    .error (.validationError "Post content cannot be empty")
  else if value.length > 5000 then
    .error (.validationError "Post content cannot exceed 5000 characters")
  else
    .ok (pyStrip value)

/-- The `POST /posts` path (`PostListCreateView`, views.py): DRF validates
through `PostSerializer` first, then `perform_create` passes
the validated content to `PostService.create_post`. -/
def create_post_endpoint (s : DB) (authorId : Nat) (content : String)
    (now : Nat) : Except SvcError PostRec × DB :=
  match postValidateContent content with
  | .error e => (.error e, s)
  | .ok validated => create_post s authorId validated now

/-- `Comment.clean` (models.py): `not self.content or not
self.content.strip()` raises; equivalent to `stripEmpty`. -/
def commentClean (content : String) : Except SvcError Unit :=
  if stripEmpty content then
    .error (.validationError "Comment content cannot be empty")
  else
    .ok ()

/-- `CommentRepository.create` → `Comment.objects.create` → the overridden
`Comment.save`, which runs `Comment.clean` before persisting. -/
def comment_repo_create (s : DB) (authorId postId : Nat) (content : String)
    (now : Nat) : Except SvcError CommentRec × DB :=
  match commentClean content with
  | .error e => (.error e, s)
  | .ok _ =>
    let c : CommentRec :=
      { id := s.nextCommentId, authorId := authorId, postId := postId,
        content := content, createdAt := now }
    (.ok c, { s with comments := s.comments ++ [c],
                     nextCommentId := s.nextCommentId + 1 })

/-- `DjangoRepository.update` on the comment table with a new `content`
value: fetch by pk (`None` if missing), set the attribute, and
`instance.save()` — which for `Comment` runs `clean` first. -/
def comment_repo_update (s : DB) (id : Nat) (content : String) :
    Except SvcError (Option CommentRec) × DB :=
  match getCommentById s id with
  | none => (.ok none, s)
  | some c =>
    let c2 : CommentRec := { c with content := content }
    match commentClean c2.content with
    | .error e => (.error e, s)
    | .ok _ =>
      (.ok (some c2),
       { s with comments := s.comments.map (fun x => if x.id = id then c2 else x) })

/-- `CommentService.create_comment` (services.py).  Checks run in source
order: author lookup, post lookup, content emptiness; then
`CommentRepository.create`. -/
def create_comment (s : DB) (authorId postId : Nat) (content : String)
    (now : Nat) : Except SvcError CommentRec × DB :=
  match getUserById s authorId with
  | none => (.error (.notFound "Author not found"), s)
  | some author =>
    match getPostById s postId with
    | none => (.error (.notFound "Post not found"), s)
    | some post =>
      if stripEmpty content then
        (.error (.validationError "Comment content cannot be empty"), s)
      else
        comment_repo_create s author.id post.id content now

/-- `CommentSerializer.validate_content` (serializers.py): reject empty or
whitespace-only content, then content over 1000 characters, and return the
stripped value. -/
def commentValidateContent (value : String) : Except SvcError String :=
  if stripEmpty value then
    .error (.validationError "Comment content cannot be empty")
  else if value.length > 1000 then
    .error (.validationError "Comment content cannot exceed 1000 characters")
  else
    .ok (pyStrip value)

/-- Newest-first order on comments (descending `created_at`). -/
def commentGE (a b : CommentRec) : Prop := b.createdAt ≤ a.createdAt

instance : DecidableRel commentGE := fun _ _ => Nat.decLe _ _

instance : IsTotal CommentRec commentGE := ⟨fun a b => Nat.le_total b.createdAt a.createdAt⟩

instance : IsTrans CommentRec commentGE := ⟨fun _ _ _ h1 h2 => le_trans h2 h1⟩

/-- Newest-first order on posts (descending `created_at`). -/
def postGE (a b : PostRec) : Prop := b.createdAt ≤ a.createdAt

instance : DecidableRel postGE := fun _ _ => Nat.decLe _ _

instance : IsTotal PostRec postGE := ⟨fun a b => Nat.le_total b.createdAt a.createdAt⟩

instance : IsTrans PostRec postGE := ⟨fun _ _ _ h1 h2 => le_trans h2 h1⟩

/-- `Comment.objects.filter(post=post)`: all comments of one post. -/
def commentsOfPost (s : DB) (postId : Nat) : List CommentRec :=
  s.comments.filter (fun c => c.postId == postId)

/-- `PostService.get_post_with_comments` (services.py): `None` when the
post is missing; otherwise the post, its comments ordered newest-first cut
to `commentsLimit`, and the total comment count over the unrestricted
queryset. -/
def get_post_with_comments (s : DB) (postId : Nat) (commentsLimit : Nat) :
    Option (PostRec × List CommentRec × Nat) :=
  match getPostById s postId with
  | none => none
  | some post =>
    let recentComments :=
      (List.insertionSort commentGE (commentsOfPost s post.id)).take commentsLimit
    some (post, recentComments, (commentsOfPost s post.id).length)

/-- The filter dictionary of `get_posts_with_filters`.  `author_id` is an
integer when present (and Python treats `0` as falsy); `from_date` /
`to_date` are datetime objects, which are always truthy in Python, so only
their presence matters; `limit` defaults to 20 when the key is absent. -/
structure PostFilters where
  author_id : Option Nat
  from_date : Option Nat
  to_date : Option Nat
  limit : Option Nat
deriving DecidableEq, Repr

/-- `PostService.get_posts_with_filters` (services.py): order all posts
newest-first, then conditionally filter on the truthiness test on each filter value, then slice to the limit value, defaulting to 20 when the key is absent. -/
def get_posts_with_filters (s : DB) (f : PostFilters) : List PostRec :=
  let q0 : List PostRec := List.insertionSort postGE s.posts
  let q1 : List PostRec := match f.author_id with
    | some a => if a ≠ 0 then q0.filter (fun p => p.authorId == a) else q0
    | none => q0
  let q2 : List PostRec := match f.from_date with
    | some d => q1.filter (fun p => d ≤ p.createdAt)
    | none => q1
  let q3 : List PostRec := match f.to_date with
    | some d => q2.filter (fun p => p.createdAt ≤ d)
    | none => q2
  q3.take (f.limit.getD 20)

/-! Helper lemmas -/

theorem getUserById_id {s : DB} {i : Nat} {u : UserRec}
    (h : getUserById s i = some u) : u.id = i := by
  have := List.find?_some h
  simpa using this

theorem getPostById_id {s : DB} {i : Nat} {p : PostRec}
    (h : getPostById s i = some p) : p.id = i := by
  have := List.find?_some h
  simpa using this

/-- Taking a prefix of a list sorted by a transitive total order: the
prefix is sorted, its length is the requested cut of the full length, and
together with the dropped suffix it is a permutation of any list the
sorted one permutes, with every kept element related to every dropped
one. -/
theorem sorted_take_spec {α : Type} {r : α → α → Prop} {l m : List α} (n : Nat)
    (hs : List.Sorted r l) (hp : l.Perm m) :
    List.Sorted r (l.take n) ∧ (l.take n).length = min n m.length ∧
    ((l.take n) ++ l.drop n).Perm m ∧
    (∀ x ∈ l.take n, ∀ y ∈ l.drop n, r x y) := by
  refine ⟨hs.sublist (List.take_sublist n l), ?_, ?_, ?_⟩
  · rw [List.length_take, hp.length_eq]
  · rw [List.take_append_drop]; exact hp
  · have h2 : List.Pairwise r (l.take n ++ l.drop n) := by
      rw [List.take_append_drop]; exact hs
    exact (List.pairwise_append.1 h2).2.2

/-! Example rows used to instantiate the theorems on concrete inputs. -/

/-- Example user 1. -/
def exU1 : UserRec := { id := 1, username := "alice", email := "a@x.com", password := "pw1" }

/-- Example user 2. -/
def exU2 : UserRec := { id := 2, username := "bob", email := "b@x.com", password := "pw2" }

/-- Example post authored by user 1. -/
def exPost1 : PostRec := { id := 1, authorId := 1, content := "hello", createdAt := 10 }

/-- Example store: two users, one post, no comments, no follow edges. -/
def exDB : DB :=
  { users := [exU1, exU2], posts := [exPost1], comments := [], follows := ∅,
    nextUserId := 3, nextPostId := 2, nextCommentId := 1 }

/-! Claim theorems -/

/-- Claim C2: for existing users A ≠ B with no follow edge from A to B,
`followUser(A, B)` succeeds, afterwards `isFollowing(A, B)` is true, the
follower count of B grows by exactly 1 and the following count of A grows
by exactly 1. -/
theorem followUser_success (s : DB) (a b : Nat) (ua ub : UserRec)
    (ha : getUserById s a = some ua) (hb : getUserById s b = some ub)
    (hne : a ≠ b) (hmem : (a, b) ∉ s.follows) :
    (follow_user s a b).1 =
      .ok (ua.username ++ " is now following " ++ ub.username) ∧
    isFollowing (follow_user s a b).2 a b = true ∧
    followersCount (follow_user s a b).2 b = followersCount s b + 1 ∧
    followingCount (follow_user s a b).2 a = followingCount s a + 1 := by
  have hia : ua.id = a := getUserById_id ha
  have hib : ub.id = b := getUserById_id hb
  have hids : ¬ ua.id = ub.id := by rw [hia, hib]; exact hne
  have hres : follow_user s a b =
      (.ok (ua.username ++ " is now following " ++ ub.username),
       { s with follows := insert (a, b) s.follows }) := by
    unfold follow_user
    rw [ha, hb]
    simp only [hia, hib]
    simp [hids, hmem, hne]
  rw [hres]
  refine ⟨rfl, ?_, ?_, ?_⟩
  · simp [isFollowing]
  · show ((insert (a, b) s.follows).filter (fun p => p.2 = b)).card = _
    have hf : (insert (a, b) s.follows).filter (fun p => p.2 = b) =
        insert (a, b) (s.follows.filter (fun p => p.2 = b)) := by
      rw [Finset.filter_insert]; simp
    rw [hf, Finset.card_insert_of_not_mem (fun hc => hmem (Finset.mem_filter.1 hc).1)]
    rfl
  · show ((insert (a, b) s.follows).filter (fun p => p.1 = a)).card = _
    have hf : (insert (a, b) s.follows).filter (fun p => p.1 = a) =
        insert (a, b) (s.follows.filter (fun p => p.1 = a)) := by
      rw [Finset.filter_insert]; simp
    rw [hf, Finset.card_insert_of_not_mem (fun hc => hmem (Finset.mem_filter.1 hc).1)]
    rfl

/-- Claim C2 witness: concrete two-user store with no edges. -/
theorem followUser_success_witness :
    (follow_user exDB 1 2).1 = .ok "alice is now following bob" ∧
    isFollowing (follow_user exDB 1 2).2 1 2 = true ∧
    followersCount (follow_user exDB 1 2).2 2 = followersCount exDB 2 + 1 ∧
    followingCount (follow_user exDB 1 2).2 1 = followingCount exDB 1 + 1 :=
  followUser_success exDB 1 2 exU1 exU2 (by decide) (by decide)
    (by decide) (by decide)

/-- Claim C3: `unfollowUser` fails with NotFound when either id does not
resolve; fails with ValidationError when both users exist but the edge is
missing; on success removes exactly that edge, so `isFollowing` is false
afterwards. -/
theorem unfollowUser_spec (s : DB) (a b : Nat) :
    ((getUserById s a = none ∨ getUserById s b = none) →
      unfollow_user s a b = (.error (.notFound "One or both users not found"), s)) ∧
    (∀ ua ub, getUserById s a = some ua → getUserById s b = some ub →
      (a, b) ∉ s.follows →
      unfollow_user s a b = (.error (.validationError "Not following this user"), s)) ∧
    (∀ ua ub, getUserById s a = some ua → getUserById s b = some ub →
      (a, b) ∈ s.follows →
      (unfollow_user s a b).1 = .ok (ua.username ++ " unfollowed " ++ ub.username) ∧
      (unfollow_user s a b).2.follows = s.follows.erase (a, b) ∧
      isFollowing (unfollow_user s a b).2 a b = false) := by
  refine ⟨?_, ?_, ?_⟩
  · intro h
    unfold unfollow_user
    rcases h with h | h
    · rw [h]
    · rw [h]
      rcases getUserById s a with _ | ua <;> rfl
  · intro ua ub ha hb hmem
    have hia : ua.id = a := getUserById_id ha
    have hib : ub.id = b := getUserById_id hb
    unfold unfollow_user
    rw [ha, hb]
    simp only [hia, hib]
    simp [hmem]
  · intro ua ub ha hb hmem
    have hia : ua.id = a := getUserById_id ha
    have hib : ub.id = b := getUserById_id hb
    have hres : unfollow_user s a b =
        (.ok (ua.username ++ " unfollowed " ++ ub.username),
         { s with follows := s.follows.erase (a, b) }) := by
      unfold unfollow_user
      rw [ha, hb]
      simp only [hia, hib]
      simp [hmem]
    rw [hres]
    exact ⟨rfl, rfl, by simp [isFollowing]⟩

/-- Claim C3 witness: concrete store where 1 follows 2; unfollowing
removes the edge. -/
theorem unfollowUser_spec_witness :
    (unfollow_user { exDB with follows := { (1, 2) } } 1 2).1 =
      .ok "alice unfollowed bob" ∧
    (unfollow_user { exDB with follows := { (1, 2) } } 1 2).2.follows =
      ({ (1, 2) } : Finset (Nat × Nat)).erase (1, 2) ∧
    isFollowing (unfollow_user { exDB with follows := { (1, 2) } } 1 2).2 1 2 = false :=
  (unfollowUser_spec { exDB with follows := { (1, 2) } } 1 2).2.2 exU1 exU2
    (by decide) (by decide) (by decide)

/-- Claim C6: a duplicate `followUser(A, B)` call fails with
ValidationError and leaves the store — follow relation and all
follower/following counts — unchanged. -/
theorem followUser_duplicate_fails (s : DB) (a b : Nat) (ua ub : UserRec)
    (ha : getUserById s a = some ua) (hb : getUserById s b = some ub)
    (hmem : (a, b) ∈ s.follows) :
    (∃ msg, (follow_user s a b).1 = .error (.validationError msg)) ∧
    (follow_user s a b).2 = s ∧
    (∀ x y, isFollowing (follow_user s a b).2 x y = isFollowing s x y) ∧
    (∀ u, followersCount (follow_user s a b).2 u = followersCount s u) ∧
    (∀ u, followingCount (follow_user s a b).2 u = followingCount s u) := by
  have hia : ua.id = a := getUserById_id ha
  have hib : ub.id = b := getUserById_id hb
  have hkey : (∃ msg, (follow_user s a b).1 = .error (.validationError msg)) ∧
      (follow_user s a b).2 = s := by
    unfold follow_user
    rw [ha, hb]
    simp only [hia, hib]
    by_cases hself : a = b
    · simp [hself]
    · simp [hself, hmem]
  refine ⟨hkey.1, hkey.2, ?_, ?_, ?_⟩ <;> intro x <;> rw [hkey.2] <;> intros <;> rfl

/-- Claim C6 witness: second follow of 2 by 1 fails and changes nothing. -/
theorem followUser_duplicate_fails_witness :
    (∃ msg, (follow_user { exDB with follows := { (1, 2) } } 1 2).1 =
      .error (.validationError msg)) ∧
    (follow_user { exDB with follows := { (1, 2) } } 1 2).2 =
      { exDB with follows := { (1, 2) } } :=
  ⟨(followUser_duplicate_fails { exDB with follows := { (1, 2) } } 1 2 exU1 exU2
      (by decide) (by decide) (by decide)).1,
   (followUser_duplicate_fails { exDB with follows := { (1, 2) } } 1 2 exU1 exU2
      (by decide) (by decide) (by decide)).2.1⟩

/-- Claim C10: follow then unfollow is a round trip — for existing users
A ≠ B with no prior edge, both calls succeed and the store returns to its
exact prior value, so `isFollowing(A, B)` is false and the
follower and following sets are restored. -/
theorem follow_unfollow_roundtrip (s : DB) (a b : Nat) (ua ub : UserRec)
    (ha : getUserById s a = some ua) (hb : getUserById s b = some ub)
    (hne : a ≠ b) (hmem : (a, b) ∉ s.follows) :
    (follow_user s a b).1.isOk = true ∧
    (unfollow_user (follow_user s a b).2 a b).1.isOk = true ∧
    (unfollow_user (follow_user s a b).2 a b).2 = s ∧
    isFollowing (unfollow_user (follow_user s a b).2 a b).2 a b = false ∧
    followersOf (unfollow_user (follow_user s a b).2 a b).2 a = followersOf s a ∧
    followersOf (unfollow_user (follow_user s a b).2 a b).2 b = followersOf s b ∧
    followingOf (unfollow_user (follow_user s a b).2 a b).2 a = followingOf s a ∧
    followingOf (unfollow_user (follow_user s a b).2 a b).2 b = followingOf s b := by
  have hia : ua.id = a := getUserById_id ha
  have hib : ub.id = b := getUserById_id hb
  have hids : ¬ ua.id = ub.id := by rw [hia, hib]; exact hne
  have hres1 : follow_user s a b =
      (.ok (ua.username ++ " is now following " ++ ub.username),
       { s with follows := insert (a, b) s.follows }) := by
    unfold follow_user
    rw [ha, hb]
    simp only [hia, hib]
    simp [hids, hmem, hne]
  set s1 : DB := { s with follows := insert (a, b) s.follows } with hs1
  have ha1 : getUserById s1 a = some ua := ha
  have hb1 : getUserById s1 b = some ub := hb
  have hmem1 : (a, b) ∈ s1.follows := by simp [hs1]
  have hres2 : unfollow_user s1 a b =
      (.ok (ua.username ++ " unfollowed " ++ ub.username),
       { s1 with follows := s1.follows.erase (a, b) }) := by
    unfold unfollow_user
    rw [ha1, hb1]
    simp only [hia, hib]
    simp [hmem1]
  have hback : ({ s1 with follows := s1.follows.erase (a, b) } : DB) = s := by
    show ({ s with follows := (insert (a, b) s.follows).erase (a, b) } : DB) = s
    rw [Finset.erase_insert hmem]
  rw [hres1]
  simp only []
  rw [hres2, hback]
  refine ⟨rfl, rfl, rfl, ?_, rfl, rfl, rfl, rfl⟩
  simpa [isFollowing] using hmem

/-- Claim C10 witness: concrete round trip on the two-user store. -/
theorem follow_unfollow_roundtrip_witness :
    (follow_user exDB 1 2).1.isOk = true ∧
    (unfollow_user (follow_user exDB 1 2).2 1 2).1.isOk = true ∧
    (unfollow_user (follow_user exDB 1 2).2 1 2).2 = exDB ∧
    isFollowing (unfollow_user (follow_user exDB 1 2).2 1 2).2 1 2 = false ∧
    followersOf (unfollow_user (follow_user exDB 1 2).2 1 2).2 1 = followersOf exDB 1 ∧
    followersOf (unfollow_user (follow_user exDB 1 2).2 1 2).2 2 = followersOf exDB 2 ∧
    followingOf (unfollow_user (follow_user exDB 1 2).2 1 2).2 1 = followingOf exDB 1 ∧
    followingOf (unfollow_user (follow_user exDB 1 2).2 1 2).2 2 = followingOf exDB 2 :=
  follow_unfollow_roundtrip exDB 1 2 exU1 exU2 (by decide) (by decide)
    (by decide) (by decide)

/-- Claim C1: `createComment` checks author-exists, then post-exists, then
content-non-empty, in that order: a missing author gives NotFound for
every content; otherwise a missing post gives NotFound regardless of
content validity; otherwise content empty after trimming gives
ValidationError; otherwise the comment is created and returned. -/
theorem createComment_check_order (s : DB) (authorId postId : Nat)
    (content : String) (now : Nat) :
    (getUserById s authorId = none →
      create_comment s authorId postId content now =
        (.error (.notFound "Author not found"), s)) ∧
    (∀ author, getUserById s authorId = some author →
      getPostById s postId = none →
      create_comment s authorId postId content now =
        (.error (.notFound "Post not found"), s)) ∧
    (∀ author post, getUserById s authorId = some author →
      getPostById s postId = some post → stripEmpty content = true →
      create_comment s authorId postId content now =
        (.error (.validationError "Comment content cannot be empty"), s)) ∧
    (∀ author post, getUserById s authorId = some author →
      getPostById s postId = some post → stripEmpty content = false →
      create_comment s authorId postId content now =
        (.ok { id := s.nextCommentId, authorId := author.id, postId := post.id,
               content := content, createdAt := now },
         { s with
             comments := s.comments ++
               [{ id := s.nextCommentId, authorId := author.id,
                  postId := post.id, content := content, createdAt := now }],
             nextCommentId := s.nextCommentId + 1 })) := by
  refine ⟨?_, ?_, ?_, ?_⟩
  · intro h
    unfold create_comment
    rw [h]
  · intro author hA hP
    unfold create_comment
    rw [hA, hP]
  · intro author post hA hP hc
    unfold create_comment
    rw [hA, hP]
    simp [hc]
  · intro author post hA hP hc
    unfold create_comment
    rw [hA, hP]
    simp [hc, comment_repo_create, commentClean]

/-- Claim C1 witness: valid comment creation on the concrete store. -/
theorem createComment_check_order_witness :
    create_comment exDB 1 1 "hi" 7 =
      (.ok { id := exDB.nextCommentId, authorId := exU1.id, postId := exPost1.id,
             content := "hi", createdAt := 7 },
       { exDB with
           comments := exDB.comments ++
             [{ id := exDB.nextCommentId, authorId := exU1.id,
                postId := exPost1.id, content := "hi", createdAt := 7 }],
           nextCommentId := exDB.nextCommentId + 1 }) :=
  (createComment_check_order exDB 1 1 "hi" 7).2.2.2 exU1 exPost1
    (by decide) (by decide) (by decide)

/-- Claim C5: `createUser` checks missing-field, then username uniqueness
(for any email), then email uniqueness, in that order; a passing input
persists and returns the new user.  A field is missing/blank when the
dictionary lookup yields `None` or the empty string (Python falsiness in
`not all([...])`). -/
theorem createUser_check_order (s : DB) (username email password : Option String) :
    ((username = none ∨ username = some "" ∨ email = none ∨ email = some "" ∨
      password = none ∨ password = some "") →
      create_user s username email password =
        (.error (.validationError "Username, email, and password are required"), s)) ∧
    (∀ un em pw, username = some un → email = some em → password = some pw →
      un ≠ "" → em ≠ "" → pw ≠ "" →
      ((getUserByUsername s un).isSome →
        create_user s username email password =
          (.error (.validationError "Username already exists"), s)) ∧
      (getUserByUsername s un = none → (getUserByEmail s em).isSome →
        create_user s username email password =
          (.error (.validationError "Email already exists"), s)) ∧
      (getUserByUsername s un = none → getUserByEmail s em = none →
        create_user s username email password =
          (.ok { id := s.nextUserId, username := un, email := em, password := pw },
           { s with
               users := s.users ++
                 [{ id := s.nextUserId, username := un, email := em, password := pw }],
               nextUserId := s.nextUserId + 1 }))) := by
  constructor
  · intro h
    unfold create_user
    rcases username with _ | un <;> rcases email with _ | em <;>
      rcases password with _ | pw <;> simp at h ⊢ <;> tauto
  · intro un em pw hu he hp hun hem hpw
    subst hu; subst he; subst hp
    refine ⟨?_, ?_, ?_⟩
    · intro hdup
      unfold create_user
      simp [hun, hem, hpw, hdup]
    · intro hu0 hdup
      unfold create_user
      simp [hun, hem, hpw, hu0, hdup]
    · intro hu0 he0
      unfold create_user
      simp [hun, hem, hpw, hu0, he0]

/-- Claim C5 witness: duplicate username rejected even with a fresh
email, on the concrete store. -/
theorem createUser_check_order_witness :
    create_user exDB (some "alice") (some "fresh@x.com") (some "pw") =
      (.error (.validationError "Username already exists"), exDB) :=
  ((createUser_check_order exDB (some "alice") (some "fresh@x.com") (some "pw")).2
    "alice" "fresh@x.com" "pw" rfl rfl rfl (by decide) (by decide) (by decide)).1
    (by decide)

/-- Claim C4: the post-creation path (serializer validation then service)
rejects empty content, whitespace-only content, and content longer than
5000 characters, each with ValidationError and without storing anything:
the store comes back unchanged, so over-length content is never silently
truncated. -/
theorem createPost_rejects_invalid (s : DB) (authorId now : Nat) (content : String) :
    (create_post_endpoint s authorId "" now =
      (.error (.validationError "Post content cannot be empty"), s)) ∧
    (create_post_endpoint s authorId "   " now =
      (.error (.validationError "Post content cannot be empty"), s)) ∧
    (content.length > 5000 →
      ∃ msg, create_post_endpoint s authorId content now =
        (.error (.validationError msg), s)) := by
  refine ⟨by rfl, by rfl, ?_⟩
  intro hlen
  unfold create_post_endpoint postValidateContent
  by_cases hc : stripEmpty content = true
  · exact ⟨"Post content cannot be empty", by simp [hc]⟩
  · exact ⟨"Post content cannot exceed 5000 characters", by simp [hc, hlen]⟩

/-- Claim C4 witness: a 5001-character content is rejected and the store
is unchanged. -/
theorem createPost_rejects_invalid_witness :
    ∃ msg, create_post_endpoint exDB 1 (String.mk (List.replicate 5001 'a')) 3 =
      (.error (.validationError msg), exDB) :=
  (createPost_rejects_invalid exDB 1 3 (String.mk (List.replicate 5001 'a'))).2.2
    (by
      show 5000 < (String.mk (List.replicate 5001 'a')).length
      rw [show (String.mk (List.replicate 5001 'a')).length =
            (List.replicate 5001 'a').length from rfl,
          List.length_replicate]
      omega)

/-- Claim C7: `getPostWithComments` returns None for a missing post;
otherwise the post, its `commentsLimit` newest comments in newest-first
order (every returned comment at least as recent as every omitted one),
and the total comment count of the post, which equals the full number of
comments whatever the limit. -/
theorem getPostWithComments_spec (s : DB) (postId limit : Nat) :
    (getPostById s postId = none → get_post_with_comments s postId limit = none) ∧
    (∀ post, getPostById s postId = some post →
      get_post_with_comments s postId limit =
        some (post,
          (List.insertionSort commentGE (commentsOfPost s post.id)).take limit,
          (commentsOfPost s post.id).length) ∧
      ((List.insertionSort commentGE (commentsOfPost s post.id)).take limit).length =
        min limit (commentsOfPost s post.id).length ∧
      List.Sorted commentGE
        ((List.insertionSort commentGE (commentsOfPost s post.id)).take limit) ∧
      ((List.insertionSort commentGE (commentsOfPost s post.id)).take limit ++
        (List.insertionSort commentGE (commentsOfPost s post.id)).drop limit).Perm
        (commentsOfPost s post.id) ∧
      (∀ x ∈ (List.insertionSort commentGE (commentsOfPost s post.id)).take limit,
        ∀ y ∈ (List.insertionSort commentGE (commentsOfPost s post.id)).drop limit,
        y.createdAt ≤ x.createdAt)) := by
  constructor
  · intro h
    unfold get_post_with_comments
    rw [h]
  · intro post hP
    have hsorted := List.sorted_insertionSort commentGE (commentsOfPost s post.id)
    have hperm := List.perm_insertionSort commentGE (commentsOfPost s post.id)
    obtain ⟨h1, h2, h3, h4⟩ := sorted_take_spec limit hsorted hperm
    refine ⟨?_, h2, h1, h3, h4⟩
    unfold get_post_with_comments
    rw [hP]

/-- Claim C7 witness: store with three comments on post 1, limit 2. -/
theorem getPostWithComments_spec_witness :
    get_post_with_comments
      { exDB with comments :=
          [{ id := 1, authorId := 2, postId := 1, content := "c1", createdAt := 1 },
           { id := 2, authorId := 2, postId := 1, content := "c2", createdAt := 5 },
           { id := 3, authorId := 2, postId := 1, content := "c3", createdAt := 3 }] } 1 2 =
      some (exPost1,
        (List.insertionSort commentGE
          (commentsOfPost
            { exDB with comments :=
                [{ id := 1, authorId := 2, postId := 1, content := "c1", createdAt := 1 },
                 { id := 2, authorId := 2, postId := 1, content := "c2", createdAt := 5 },
                 { id := 3, authorId := 2, postId := 1, content := "c3", createdAt := 3 }] }
            exPost1.id)).take 2,
        (commentsOfPost
          { exDB with comments :=
              [{ id := 1, authorId := 2, postId := 1, content := "c1", createdAt := 1 },
               { id := 2, authorId := 2, postId := 1, content := "c2", createdAt := 5 },
               { id := 3, authorId := 2, postId := 1, content := "c3", createdAt := 3 }] }
          exPost1.id).length) :=
  ((getPostWithComments_spec
      { exDB with comments :=
          [{ id := 1, authorId := 2, postId := 1, content := "c1", createdAt := 1 },
           { id := 2, authorId := 2, postId := 1, content := "c2", createdAt := 5 },
           { id := 3, authorId := 2, postId := 1, content := "c3", createdAt := 3 }] } 1 2).2
    exPost1 (by decide)).1

/-- The post filter of the claim, read off the spec sentence: author must match
exactly when given, `createdAt` within the inclusive bounds when given. -/
def postMatches (f : PostFilters) (p : PostRec) : Bool :=
  (match f.author_id with | some a => p.authorId == a | none => true) &&
  (match f.from_date with | some d => decide (d ≤ p.createdAt) | none => true) &&
  (match f.to_date with | some d => decide (p.createdAt ≤ d) | none => true)

theorem getPostsWithFilters_eq (s : DB) (f : PostFilters)
    (hauthor : ∀ a, f.author_id = some a → a ≠ 0) :
    get_posts_with_filters s f =
      ((List.insertionSort postGE s.posts).filter (postMatches f)).take
        (f.limit.getD 20) := by
  unfold get_posts_with_filters
  rcases hfa : f.author_id with _ | a
  · rcases hfd : f.from_date with _ | d1
    · rcases hft : f.to_date with _ | d2
      · simp only [hfa, hfd, hft]
        congr 1
        exact (List.filter_eq_self.2 fun p _ => by
          simp [postMatches, hfa, hfd, hft]).symm
      · simp only [hfa, hfd, hft]
        congr 1
        exact List.filter_congr fun p _ => by
          simp [postMatches, hfa, hfd, hft]
    · rcases hft : f.to_date with _ | d2
      · simp only [hfa, hfd, hft]
        congr 1
        exact List.filter_congr fun p _ => by
          simp [postMatches, hfa, hfd, hft]
      · simp only [hfa, hfd, hft, List.filter_filter]
        congr 1
        exact List.filter_congr fun p _ => by
          simp [postMatches, hfa, hfd, hft, Bool.and_comm, Bool.and_left_comm,
            Bool.and_assoc]
  · have ha : a ≠ 0 := hauthor a hfa
    rcases hfd : f.from_date with _ | d1
    · rcases hft : f.to_date with _ | d2
      · simp only [hfa, hfd, hft, ha, if_true, ne_eq, not_false_eq_true]
        congr 1
        exact List.filter_congr fun p _ => by
          simp [postMatches, hfa, hfd, hft]
      · simp only [hfa, hfd, hft, ha, if_true, ne_eq, not_false_eq_true,
          List.filter_filter]
        congr 1
        exact List.filter_congr fun p _ => by
          simp [postMatches, hfa, hfd, hft, Bool.and_comm, Bool.and_left_comm,
            Bool.and_assoc]
    · rcases hft : f.to_date with _ | d2
      · simp only [hfa, hfd, hft, ha, if_true, ne_eq, not_false_eq_true,
          List.filter_filter]
        congr 1
        exact List.filter_congr fun p _ => by
          simp [postMatches, hfa, hfd, hft, Bool.and_comm, Bool.and_left_comm,
            Bool.and_assoc]
      · simp only [hfa, hfd, hft, ha, if_true, ne_eq, not_false_eq_true,
          List.filter_filter]
        congr 1
        exact List.filter_congr fun p _ => by
          simp [postMatches, hfa, hfd, hft, Bool.and_comm, Bool.and_left_comm,
            Bool.and_assoc]

/-- Claim C8 (amended): with every given filter independent and optional —
and a given `authorId` additionally nonzero, since a zero `authorId` is
falsy in Python and the filter is skipped — the result is exactly the
matching posts (author exact, `createdAt` bounds inclusive), ordered
newest-first, truncated to `limit` with default 20. -/
theorem getPostsWithFilters_spec (s : DB) (f : PostFilters)
    (hauthor : ∀ a, f.author_id = some a → a ≠ 0) :
    List.Sorted postGE (get_posts_with_filters s f) ∧
    (get_posts_with_filters s f).length =
      min (f.limit.getD 20) (s.posts.filter (postMatches f)).length ∧
    (get_posts_with_filters s f ++
      ((List.insertionSort postGE s.posts).filter (postMatches f)).drop
        (f.limit.getD 20)).Perm (s.posts.filter (postMatches f)) ∧
    (∀ x ∈ get_posts_with_filters s f,
      ∀ y ∈ ((List.insertionSort postGE s.posts).filter (postMatches f)).drop
        (f.limit.getD 20),
      y.createdAt ≤ x.createdAt) := by
  have hmain := getPostsWithFilters_eq s f hauthor
  have hsorted : List.Sorted postGE
      ((List.insertionSort postGE s.posts).filter (postMatches f)) :=
    (List.sorted_insertionSort postGE s.posts).filter _
  have hperm : ((List.insertionSort postGE s.posts).filter (postMatches f)).Perm
      (s.posts.filter (postMatches f)) :=
    (List.perm_insertionSort postGE s.posts).filter _
  obtain ⟨h1, h2, h3, h4⟩ := sorted_take_spec (f.limit.getD 20) hsorted hperm
  rw [hmain]
  exact ⟨h1, h2, h3, h4⟩

/-- Claim C8 witness: an author filter of 1 with an inclusive date window
on the concrete store. -/
theorem getPostsWithFilters_spec_witness :
    List.Sorted postGE (get_posts_with_filters exDB
      { author_id := some 1, from_date := some 10, to_date := some 10, limit := none }) ∧
    (get_posts_with_filters exDB
      { author_id := some 1, from_date := some 10, to_date := some 10, limit := none }).length =
      min 20 (exDB.posts.filter (postMatches
        { author_id := some 1, from_date := some 10, to_date := some 10, limit := none })).length :=
  ⟨(getPostsWithFilters_spec exDB
      { author_id := some 1, from_date := some 10, to_date := some 10, limit := none }
      (by intro a h; cases h; decide)).1,
   (getPostsWithFilters_spec exDB
      { author_id := some 1, from_date := some 10, to_date := some 10, limit := none }
      (by intro a h; cases h; decide)).2.1⟩

/-- Claim C8 counterexample: an `authorId` filter of 0 is falsy in Python,
so `get_posts_with_filters` skips the author filter and returns a post
whose author is 1, not 0 — the result is not "exactly the posts matching
authorId" for this given filter. -/
theorem getPostsWithFilters_zero_author_cex :
    ({ author_id := some 0, from_date := none, to_date := none,
       limit := none } : PostFilters).author_id = some 0 ∧
    get_posts_with_filters exDB
      { author_id := some 0, from_date := none, to_date := none, limit := none } =
      [exPost1] ∧
    exPost1.authorId = 1 := by
  refine ⟨rfl, ?_, rfl⟩
  decide

/-- Non-emptiness-after-trim part of the comment content invariant. -/
def commentNonBlank (c : CommentRec) : Bool :=
  !(stripEmpty c.content)

/-- The invariant claimed for stored comments: content non-empty after
trimming and at most 1000 characters. -/
def commentInvariantFull (c : CommentRec) : Bool :=
  !(stripEmpty c.content) && decide (c.content.length ≤ 1000)

/-- A 1001-character content, over the claimed 1000-character bound. -/
def longContent : String := String.mk (List.replicate 1001 'a')

set_option maxRecDepth 8000 in
/-- Claim C9 counterexample: on a store whose comments all satisfy the
claimed invariant, `CommentService.create_comment` accepts a
1001-character content — neither the service nor the model-level
`Comment.clean` run by the repository checks the 1000-character bound —
and afterwards a stored comment violates the claimed invariant. -/
theorem commentInvariant_not_preserved_cex :
    (∀ c ∈ exDB.comments, commentInvariantFull c = true) ∧
    (create_comment exDB 1 1 longContent 5).1.isOk = true ∧
    (create_comment exDB 1 1 longContent 5).2.comments.all commentInvariantFull
      = false := by
  refine ⟨by decide, by decide, by decide⟩

/-- Claim C9 (amended): every write path — `CommentService.create_comment`,
`CommentRepository.create`, `CommentRepository.update` — preserves the
non-empty-after-trim part of the invariant (enforced by `Comment.clean`
inside `Comment.save`), while the 1000-character bound is enforced only at
the serializer boundary: `CommentSerializer.validate_content` rejects any
content over 1000 characters. -/
theorem comment_nonblank_invariant (s : DB)
    (hinv : ∀ c ∈ s.comments, commentNonBlank c = true) :
    (∀ authorId postId content now,
      ∀ c ∈ (create_comment s authorId postId content now).2.comments,
        commentNonBlank c = true) ∧
    (∀ authorId postId content now,
      ∀ c ∈ (comment_repo_create s authorId postId content now).2.comments,
        commentNonBlank c = true) ∧
    (∀ id content,
      ∀ c ∈ (comment_repo_update s id content).2.comments,
        commentNonBlank c = true) ∧
    (∀ v : String, v.length > 1000 →
      ∃ e, commentValidateContent v = .error e) := by
  have hrepo : ∀ authorId postId content now,
      ∀ c ∈ (comment_repo_create s authorId postId content now).2.comments,
        commentNonBlank c = true := by
    intro authorId postId content now c hc
    unfold comment_repo_create commentClean at hc
    by_cases hs : stripEmpty content = true
    · rw [if_pos hs] at hc
      exact hinv c hc
    · rw [if_neg hs] at hc
      simp only [List.mem_append, List.mem_singleton] at hc
      rcases hc with hc | hc
      · exact hinv c hc
      · subst hc
        simpa [commentNonBlank] using hs
  refine ⟨?_, hrepo, ?_, ?_⟩
  · intro authorId postId content now c hc
    rcases hA : getUserById s authorId with _ | author
    · have heq : create_comment s authorId postId content now =
          (.error (.notFound "Author not found"), s) := by
        unfold create_comment
        rw [hA]
      rw [heq] at hc
      exact hinv c hc
    · rcases hP : getPostById s postId with _ | post
      · have heq : create_comment s authorId postId content now =
            (.error (.notFound "Post not found"), s) := by
          unfold create_comment
          rw [hA, hP]
        rw [heq] at hc
        exact hinv c hc
      · by_cases hs : stripEmpty content = true
        · have heq : create_comment s authorId postId content now =
              (.error (.validationError "Comment content cannot be empty"), s) := by
            unfold create_comment
            rw [hA, hP]
            simp [hs]
          rw [heq] at hc
          exact hinv c hc
        · have heq : create_comment s authorId postId content now =
              comment_repo_create s author.id post.id content now := by
            unfold create_comment
            rw [hA, hP]
            simp [hs]
          rw [heq] at hc
          exact hrepo author.id post.id content now c hc
  · intro id content c hc
    rcases hC : getCommentById s id with _ | c0
    · have heq : comment_repo_update s id content = (.ok none, s) := by
        unfold comment_repo_update
        rw [hC]
      rw [heq] at hc
      exact hinv c hc
    · by_cases hs : stripEmpty content = true
      · have heq : comment_repo_update s id content =
            (.error (.validationError "Comment content cannot be empty"), s) := by
          unfold comment_repo_update
          rw [hC]
          simp [commentClean, hs]
        rw [heq] at hc
        exact hinv c hc
      · have heq : comment_repo_update s id content =
            (.ok (some { c0 with content := content }),
             { s with comments := List.map (fun x => if x.id = id then { c0 with content := content } else x) s.comments }) := by
          unfold comment_repo_update
          rw [hC]
          simp [commentClean, hs]
        rw [heq] at hc
        simp only [List.mem_map] at hc
        obtain ⟨x, hx, hxeq⟩ := hc
        by_cases hid : x.id = id
        · rw [if_pos hid] at hxeq
          subst hxeq
          simpa [commentNonBlank] using hs
        · rw [if_neg hid] at hxeq
          subst hxeq
          exact hinv x hx
  · intro v hlen
    unfold commentValidateContent
    by_cases hs : stripEmpty v = true
    · exact ⟨.validationError "Comment content cannot be empty", by simp [hs]⟩
    · exact ⟨.validationError "Comment content cannot exceed 1000 characters",
        by simp [hs, hlen]⟩

/-- Claim C9 amended-theorem witness: the empty-comment store satisfies
the invariant hypothesis; a service write keeps all comments non-blank,
and the serializer rejects the 1001-character content. -/
theorem comment_nonblank_invariant_witness :
    (∀ c ∈ (create_comment exDB 1 1 "hi" 5).2.comments,
      commentNonBlank c = true) ∧
    (∃ e, commentValidateContent longContent = .error e) :=
  ⟨(comment_nonblank_invariant exDB (by decide)).1 1 1 "hi" 5,
   (comment_nonblank_invariant exDB (by decide)).2.2.2 longContent
     (by
       show 1000 < (String.mk (List.replicate 1001 'a')).length
       rw [show (String.mk (List.replicate 1001 'a')).length =
             (List.replicate 1001 'a').length from rfl,
           List.length_replicate]
       omega)⟩

end SocialMedia
